import Mathlib

/-!
Shallow embedding of the KernelSU developer-keyring certificate lifecycle
engine: the certificate state resolver and ownership verifier
(`cert-manager`), the certificate issuer (`keyring`, public-key flow),
the revocation handler (`revoke`), and the CRL generator (`generate-crl`).

Ledger entries (GitHub issues) are modelled structurally: an issue has a
number, title, body, author login, creation/closing timestamps and a
threaded comment list.  Timestamps are epoch milliseconds as natural
numbers, matching the JavaScript `Date.getTime` arithmetic.  The
network fetch of the ledger is modelled as an `Except` value supplied to
each function, matching the source's try/catch around the GraphQL query.

String scanning follows the JavaScript source: `String.prototype.includes`
becomes a substring test, `toLowerCase` an ASCII lowering (the handles and
tags involved are ASCII), and the serial-number / fingerprint regular
expressions are modelled by explicit scanners with the same
first-match-wins and backtracking behaviour; the only simplification is
that the dot of the lazy gap `.*?` is allowed to cross newlines.
-/

/-- ASCII lowercase of one character, modelling `toLowerCase` on the ASCII
handles and tags used by the ledger. -/
def lcChar (c : Char) : Char :=
  if 65 ≤ c.toNat ∧ c.toNat ≤ 90 then Char.ofNat (c.toNat + 32) else c

/-- Lowercase an entire string (ASCII), modelling `s.toLowerCase()`. -/
def lowerStr (s : String) : String :=
  String.mk (s.data.map lcChar)

/-- `needle` occurs at the head of `hay`. -/
def prefixAt : List Char → List Char → Bool
  | [], _ => true
  | _ :: _, [] => false
  | a :: as, b :: bs => a == b && prefixAt as bs

/-- Case-insensitive (ASCII) variant of `prefixAt`. -/
def ciPrefixAt : List Char → List Char → Bool
  | [], _ => true
  | _ :: _, [] => false
  | a :: as, b :: bs => lcChar a == lcChar b && ciPrefixAt as bs

/-- `needle` occurs somewhere in `hay`. -/
def hasSub (needle : List Char) : List Char → Bool
  | [] => prefixAt needle []
  | c :: rest => prefixAt needle (c :: rest) || hasSub needle rest

/-- Model of JavaScript `hay.includes(needle)`. -/
def strIncludes (hay needle : String) : Bool :=
  hasSub needle.data hay.data

/-- The backquote character, written by code point to keep it out of the
source text. -/
def backquote : Char := Char.ofNat 96

/-- The full-width colon accepted by the serial-number template regex. -/
def fullColon : Char := Char.ofNat 65306

/-- JavaScript `\s` for the ASCII whitespace actually used in issue
bodies. -/
def jsSpace (c : Char) : Bool :=
  c == ' ' || c == '\t' || c == '\n' || c == '\r'

/-- JavaScript `[0-9a-fA-F]`. -/
def hexDigit (c : Char) : Bool :=
  ('0' ≤ c && c ≤ '9') || ('a' ≤ c && c ≤ 'f') || ('A' ≤ c && c ≤ 'F')

/-- JavaScript `\w`, i.e. `[A-Za-z0-9_]`. -/
def wordChar (c : Char) : Bool :=
  ('0' ≤ c && c ≤ '9') || ('a' ≤ c && c ≤ 'z') || ('A' ≤ c && c ≤ 'Z') || c == '_'

/-- Drop everything up to and including the first case-insensitive
occurrence of `lit`; `none` when `lit` does not occur.  Models anchoring a
regex at the first occurrence of a literal (lazy gaps before it). -/
def dropToCI (lit : List Char) : List Char → Option (List Char)
  | [] => none
  | c :: rest =>
    if ciPrefixAt lit (c :: rest) then some (List.drop lit.length (c :: rest))
    else dropToCI lit rest

/-- Scan for a backquoted capture: the earliest backquote followed by a
nonempty run of characters satisfying `p` that is closed by another
backquote.  A failed opener is skipped, modelling the backtracking of the
lazy gap in `Serial Number.*?` followed by a backquoted group. -/
def grabCapture (p : Char → Bool) : List Char → Option (List Char)
  | [] => none
  | c :: rest =>
    if c == backquote then
      match List.span (fun d => p d && !(d == backquote)) rest with
      | (cap, rest2) =>
        if !cap.isEmpty && rest2.head? == some backquote then some cap
        else grabCapture p rest
    else grabCapture p rest

/-- Capture group of `/Serial Number.*?X([^X])X/i` (X the backquote), the
marker field holding the serial number in an issuance comment. -/
def matchSerialCapture (body : String) : Option String :=
  match dropToCI "Serial Number".data body.data with
  | none => none
  | some rest => (grabCapture (fun _ => true) rest).map String.mk

/-- Capture group of the fingerprint field regex
`/Fingerprint (SHA-256).*?/i` with a backquoted group (parentheses are
literal in the source pattern). -/
def matchFingerprintCapture (body : String) : Option String :=
  match dropToCI "Fingerprint (SHA-256)".data body.data with
  | none => none
  | some rest => (grabCapture (fun _ => true) rest).map String.mk

/-- Format 1 of the revocation serial-number extraction:
`/Serial.*?Number.*?X([0-9a-fA-F]+)X/i` with X the backquote. -/
def serialFmt1 (body : List Char) : Option (List Char) :=
  match dropToCI "Serial".data body with
  | none => none
  | some rest1 =>
    match dropToCI "Number".data rest1 with
    | none => none
    | some rest2 => grabCapture hexDigit rest2

/-- After the literal `serial` (format 2): `[_\s]*number[:：]\s*` then a
nonempty hex run, which is the capture. -/
def serialFmt2After (rest : List Char) : Option (List Char) :=
  match List.span (fun c => c == '_' || jsSpace c) rest with
  | (_, rest1) =>
    if ciPrefixAt "number".data rest1 then
      match List.drop 6 rest1 with
      | [] => none
      | c :: rest2 =>
        if c == ':' || c == fullColon then
          match List.span jsSpace rest2 with
          | (_, rest3) =>
            match List.span hexDigit rest3 with
            | (cap, _) => if cap.isEmpty then none else some cap
        else none
    else none

/-- Format 2 of the revocation serial-number extraction:
`/serial[_\s]*number[:：]\s*([0-9a-fA-F]+)/i`, trying each occurrence of
`serial` in turn. -/
def serialFmt2 : List Char → Option (List Char)
  | [] => none
  | c :: rest =>
    if ciPrefixAt "serial".data (c :: rest) then
      match serialFmt2After (List.drop 6 (c :: rest)) with
      | some cap => some cap
      | none => serialFmt2 rest
    else serialFmt2 rest

/-- Format 3 of the revocation serial-number extraction:
a bare hex run of 32 or more characters delimited by word boundaries. -/
def serialFmt3 (prevWord : Bool) : List Char → Option (List Char)
  | [] => none
  | c :: rest =>
    if hexDigit c && !prevWord then
      match List.span hexDigit (c :: rest) with
      | (run, rest2) =>
        if 32 ≤ run.length &&
            (match rest2.head? with
             | none => true
             | some d => !wordChar d) then
          some run
        else serialFmt3 (wordChar c) rest
    else serialFmt3 (wordChar c) rest

/-- `extractSerialNumber` of `revoke.js`: try the three formats in
order. -/
def extractSerialNumber (issueBody : String) : Option String :=
  match serialFmt1 issueBody.data with
  | some cap => some (String.mk cap)
  | none =>
    match serialFmt2 issueBody.data with
    | some cap => some (String.mk cap)
    | none => (serialFmt3 false issueBody.data).map String.mk

/-- `extractSerialNumberFromBody` of `generate-crl.js`, textually the same
three-format extraction as `extractSerialNumber` of `revoke.js`. -/
def extractSerialNumberFromBody : String → Option String :=
  extractSerialNumber

/-- One comment of a ledger entry's thread: body text, creation time
(epoch milliseconds) and author login. -/
structure Comment where
  body : String
  createdAt : Nat
  author : String
deriving Repr, DecidableEq

/-- One ledger entry (GitHub issue) as returned by the GraphQL queries:
closed issues carrying the relevant label, newest first. -/
structure Issue where
  number : Nat
  title : String
  body : String
  author : String
  createdAt : Nat
  closedAt : Nat
  comments : List Comment
deriving Repr, DecidableEq

/-- Certificate metadata extracted from an issuance comment by
`cert-manager.js`: serial number, optional fingerprint, and the validity
window derived from the comment timestamp. -/
structure CertInfo where
  serialNumber : String
  fingerprint : Option String
  issuedAt : Nat
  expiresAt : Nat
deriving Repr, DecidableEq

/-- The sentinel string marking a successful issuance comment. -/
def certMarker : String := "✅ Certificate successfully issued"

/-- `extractCertificateInfo` of `cert-manager.js`: find the issuance
marker comment in the thread (`Array.prototype.find`, first match), pull
the serial number and fingerprint out of it, and derive the one-year
validity window from the comment's creation time. -/
def extractCertificateInfo (comments : List Comment) : Option CertInfo :=
  match comments.find? (fun c =>
      strIncludes c.body certMarker && strIncludes c.body "Serial Number") with
  | none => none
  | some certComment =>
    let serialNumber := matchSerialCapture certComment.body
    let fingerprint := matchFingerprintCapture certComment.body
    match serialNumber with
    | none => none
    | some sn =>
      let issuedAt := certComment.createdAt
      let expiresAt := issuedAt + 365 * 24 * 60 * 60 * 1000
      some { serialNumber := sn, fingerprint := fingerprint
             issuedAt := issuedAt, expiresAt := expiresAt }

/-- `isCertificateRevoked` of `cert-manager.js`: some revocation entry has
the `[revoke]` tag in its title and the serial number somewhere in its
body. -/
def isCertificateRevoked (serialNumber : String) (revokeIssues : List Issue) : Bool :=
  revokeIssues.any (fun issue =>
    strIncludes (lowerStr issue.title) "[revoke]" &&
    strIncludes issue.body serialNumber)

/-- Result of `checkExistingCertificate`. -/
structure CheckResult where
  hasActiveCert : Bool
  certificate : Option CertInfo
  issueNumber : Option Nat
  error : Option String
deriving Repr, DecidableEq

/-- The no-active-certificate default result. -/
def noActiveResult : CheckResult :=
  { hasActiveCert := false, certificate := none, issueNumber := none, error := none }

/-- The `[keyring]` tag test applied to entry titles. -/
def keyringTitle (issue : Issue) : Bool :=
  strIncludes (lowerStr issue.title) "[keyring]"

/-- The newest-first scan loop of `checkExistingCertificate`: skip entries
with no extractable record, skip expired records, skip revoked records,
and return the first remaining record as the single active certificate. -/
def checkScan (revokeIssues : List Issue) (now : Nat) : List Issue → CheckResult
  | [] => noActiveResult
  | issue :: rest =>
    match extractCertificateInfo issue.comments with
    | none => checkScan revokeIssues now rest
    | some certInfo =>
      if certInfo.expiresAt < now then checkScan revokeIssues now rest
      else if isCertificateRevoked certInfo.serialNumber revokeIssues then
        checkScan revokeIssues now rest
      else
        { hasActiveCert := true, certificate := some certInfo
          issueNumber := some issue.number, error := none }

/-- The successful path of `checkExistingCertificate`: filter the fetched
issuance entries down to real `[keyring]` entries and scan them newest
first. -/
def checkCore (keyringIssues revokeIssues : List Issue) (now : Nat) : CheckResult :=
  checkScan revokeIssues now (keyringIssues.filter keyringTitle)

/-- `checkExistingCertificate` of `cert-manager.js`.  The ledger fetch is
the `Except` argument; on fetch failure the catch block returns the
no-active-certificate default with the error message attached
(fail-open for issuance, error surfaced). -/
def checkExistingCertificate
    (fetchResult : Except String (List Issue × List Issue)) (now : Nat) : CheckResult :=
  match fetchResult with
  | Except.error msg =>
    { hasActiveCert := false, certificate := none, issueNumber := none, error := some msg }
  | Except.ok (keyringIssues, revokeIssues) => checkCore keyringIssues revokeIssues now

/-- Result of `verifyCertificateOwnership`. -/
structure OwnershipResult where
  isOwner : Bool
  actualOwner : Option String
  issueNumber : Option Nat
deriving Repr, DecidableEq

/-- The scan of `verifyCertificateOwnership`: the first `[keyring]` entry
whose thread has an issuance marker comment containing the serial
number. -/
def findCertIssue (serialNumber : String) (issues : List Issue) : Option Issue :=
  issues.find? (fun issue =>
    strIncludes (lowerStr issue.title) "[keyring]" &&
    issue.comments.any (fun c =>
      strIncludes c.body certMarker && strIncludes c.body serialNumber))

/-- The successful path of `verifyCertificateOwnership`: the recorded
owner is the author of the entry found by `findCertIssue`, compared to the
requester case-insensitively; an unknown serial yields the unknown-denial
shape with no recorded owner. -/
def verifyCore (serialNumber username : String) (issues : List Issue) : OwnershipResult :=
  match findCertIssue serialNumber issues with
  | some issue =>
    { isOwner := lowerStr issue.author == lowerStr username
      actualOwner := some issue.author, issueNumber := some issue.number }
  | none => { isOwner := false, actualOwner := none, issueNumber := none }

/-- `verifyCertificateOwnership` of `cert-manager.js`.  On ledger fetch
failure the function rethrows a wrapped error instead of returning an
ownership result. -/
def verifyCertificateOwnership
    (fetchResult : Except String (List Issue)) (serialNumber username : String) :
    Except String OwnershipResult :=
  match fetchResult with
  | Except.error msg =>
    Except.error ("Failed to verify certificate ownership: " ++ msg)
  | Except.ok issues => Except.ok (verifyCore serialNumber username issues)

/-- One lowercase hex digit, as produced by `Buffer.toString` in base 16. -/
def hexDigitLower (n : Nat) : Char :=
  if n < 10 then Char.ofNat (48 + n) else Char.ofNat (87 + n)

/-- Lowercase hex encoding of a byte list, two digits per byte. -/
def bytesToHex : List Nat → List Char
  | [] => []
  | b :: rest => hexDigitLower (b / 16 % 16) :: hexDigitLower (b % 16) :: bytesToHex rest

/-- `generateSerialNumber` of `keyring.js`: hex encoding of the random
bytes drawn by `crypto.randomBytes(16)`, which are passed in explicitly
here so the issuer stays a pure function of its randomness. -/
def generateSerialNumber (randomBytes : List Nat) : String :=
  String.mk (bytesToHex randomBytes)

/-- The key material facts the issuer inspects on the submitted public
key: `asymmetricKeyType` and `namedCurve`.  The cryptographic parsing
itself is outside the model; these are its outputs. -/
structure KeyMaterial where
  keyType : String
  namedCurve : String
deriving Repr, DecidableEq

/-- The `supportedCurves` table of `keyring.js`. -/
def supportedCurves (namedCurve : String) : Option String :=
  if namedCurve == "prime256v1" || namedCurve == "secp256r1" then some "P-256"
  else if namedCurve == "secp384r1" then some "P-384"
  else none

/-- The certificate fields fixed by `issueDeveloperCertificate`; PEM
serialisation, fingerprinting and the ECDSA signature itself are carried
out by the certificate library and are outside the model. -/
structure IssuedCertData where
  serialNumber : String
  subjectCN : String
  subjectO : String
  notBefore : Nat
  notAfter : Nat
  hashAlgorithm : String
  basicConstraintsCA : Bool
  keyUsageDigitalSignature : Bool
  extendedKeyUsageCodeSigning : Bool
deriving Repr, DecidableEq

/-- `issueDeveloperCertificate` of `keyring.js` (public-key flow): reject
a missing CA configuration, reject non-EC keys, reject unsupported
curves, then build the leaf certificate with a fresh random serial
number, a one-year validity window, and a hash tied to the curve.  The
function takes no ledger data and consults no history of previously
issued serial numbers. -/
def issueDeveloperCertificate (caConfigured : Bool) (key : KeyMaterial)
    (username : String) (randomBytes : List Nat) (now : Nat) :
    Except String IssuedCertData :=
  if !caConfigured then
    Except.error "Middle CA certificate not found: MIDDLE_CA_CERT environment variable not set"
  else if !(key.keyType == "ec") then
    Except.error ("Unsupported key type (" ++ key.keyType ++
      "). Only ECC keys (P-256/P-384) are supported.")
  else
    match supportedCurves key.namedCurve with
    | none =>
      Except.error ("Unsupported ECC curve (" ++ key.namedCurve ++
        "). Only P-256 and P-384 curves are supported.")
    | some curveInfo =>
      let hashAlgorithm := if curveInfo == "P-256" then "SHA-256" else "SHA-512"
      Except.ok
        { serialNumber := generateSerialNumber randomBytes
          subjectCN := username
          subjectO := "KernelSU Module Developers"
          notBefore := now
          notAfter := now + 365 * 24 * 60 * 60 * 1000
          hashAlgorithm := hashAlgorithm
          basicConstraintsCA := false
          keyUsageDigitalSignature := true
          extendedKeyUsageCodeSigning := true }

/-- Outcome of the opened-issue path of `handleKeyringIssue`: reject when
an active certificate exists, otherwise proceed to evaluation and
issuance, posting a degraded-check warning first when the certificate
check reported an error. -/
inductive KeyringOpenedOutcome where
  | rejectedActiveCert (certificate : Option CertInfo) (origIssue : Option Nat)
  | warnedAndProceeded (errMsg : String)
  | proceeded
deriving Repr, DecidableEq

/-- The `action === 'opened'` path of `handleKeyringIssue` in
`keyring.js`, from the existing-certificate check onwards. -/
def handleKeyringOpened
    (fetchResult : Except String (List Issue × List Issue)) (now : Nat) :
    KeyringOpenedOutcome :=
  let existingCert := checkExistingCertificate fetchResult now
  if existingCert.hasActiveCert then
    KeyringOpenedOutcome.rejectedActiveCert existingCert.certificate existingCert.issueNumber
  else
    match existingCert.error with
    | some msg => KeyringOpenedOutcome.warnedAndProceeded msg
    | none => KeyringOpenedOutcome.proceeded

/-- Outcome of `handleRevokeIssue` in `revoke.js`. -/
inductive RevokeOutcome where
  | notRevokeIssue
  | noSerialFound
  | denied (actualOwner : Option String) (originIssue : Option Nat)
  | revoked (serialNumber : String) (adminOverride : Bool)
  | systemError (msg : String)
deriving Repr, DecidableEq

/-- The ledger write operations the revocation handler can perform. -/
inductive GhAction where
  | comment (kind : String)
  | addLabel (name : String)
  | close (completed : Bool)
  | updateCRL
deriving Repr, DecidableEq

/-- The sequence of ledger writes `handleRevokeIssue` performs for each
outcome, in source order: the catch block only posts a system-error
comment and rethrows, while a granted revocation posts the success
comment, adds the `revoked` label, closes the issue as completed and
regenerates the CRL. -/
def revokeActions : RevokeOutcome → List GhAction
  | RevokeOutcome.notRevokeIssue => []
  | RevokeOutcome.noSerialFound =>
    [GhAction.comment "revocation-request-failed", GhAction.close false]
  | RevokeOutcome.denied _ _ =>
    [GhAction.comment "revocation-request-denied", GhAction.close false]
  | RevokeOutcome.revoked _ _ =>
    [GhAction.comment "certificate-revoked-successfully",
     GhAction.addLabel "revoked", GhAction.close true, GhAction.updateCRL]
  | RevokeOutcome.systemError _ => [GhAction.comment "system-error"]

/-- `handleRevokeIssue` of `revoke.js`: require the `[revoke]` tag,
extract the serial number, verify ownership against the ledger (the
`Except` argument is the global issuance fetch), fall back to the
organisation-admin check for non-owners, and either deny or revoke.  A
ledger failure propagates out of `verifyCertificateOwnership` into the
catch block. -/
def handleRevokeIssue (issue : Issue) (fetchResult : Except String (List Issue))
    (isAdmin : Bool) : RevokeOutcome :=
  if !(strIncludes (lowerStr issue.title) "[revoke]") then
    RevokeOutcome.notRevokeIssue
  else
    match extractSerialNumber issue.body with
    | none => RevokeOutcome.noSerialFound
    | some serialNumber =>
      match verifyCertificateOwnership fetchResult serialNumber issue.author with
      | Except.error msg => RevokeOutcome.systemError msg
      | Except.ok ownership =>
        if !ownership.isOwner then
          if !isAdmin then
            RevokeOutcome.denied ownership.actualOwner ownership.issueNumber
          else RevokeOutcome.revoked serialNumber true
        else RevokeOutcome.revoked serialNumber false

/-- Certificate metadata as extracted by the CRL generator (no expiry
field). -/
structure CrlCertInfo where
  serialNumber : String
  fingerprint : Option String
  issuedAt : Nat
deriving Repr, DecidableEq

/-- `extractCertificateInfoFromComments` of `generate-crl.js`: the same
marker extraction as `extractCertificateInfo`, but scanning the reversed
thread (`slice().reverse().find`), so the last marker comment wins. -/
def extractCertificateInfoFromComments (comments : List Comment) : Option CrlCertInfo :=
  match comments.reverse.find? (fun c =>
      strIncludes c.body certMarker && strIncludes c.body "Serial Number") with
  | none => none
  | some certComment =>
    let serialNumber := matchSerialCapture certComment.body
    let fingerprint := matchFingerprintCapture certComment.body
    match serialNumber with
    | none => none
    | some sn =>
      some { serialNumber := sn, fingerprint := fingerprint
             issuedAt := certComment.createdAt }

/-- `mapRevocationReason` of `generate-crl.js`. -/
def mapRevocationReason (reason : String) : String :=
  if reason == "compromised" then "keyCompromise"
  else if reason == "lost" then "keyCompromise"
  else if reason == "superseded" then "superseded"
  else "unspecified"

/-- After one occurrence of `###` (format 1 of the reason regex):
`\s*Revocation\s*Reason\s*\n+(\w+)`.  The whitespace run after `Reason`
must end with a newline directly followed by the word being captured. -/
def reasonFmt1After (rest : List Char) : Option (List Char) :=
  match List.span jsSpace rest with
  | (_, rest1) =>
    if ciPrefixAt "Revocation".data rest1 then
      match List.span jsSpace (List.drop 10 rest1) with
      | (_, rest2) =>
        if ciPrefixAt "Reason".data rest2 then
          match List.span jsSpace (List.drop 6 rest2) with
          | (ws, rest3) =>
            if ws.getLast? == some '\n' then
              match List.span wordChar rest3 with
              | (cap, _) => if cap.isEmpty then none else some cap
            else none
        else none
    else none

/-- Format 1 of `extractRevocationReason`, tried at each occurrence of
`###`. -/
def reasonFmt1 : List Char → Option (List Char)
  | [] => none
  | c :: rest =>
    if prefixAt "###".data (c :: rest) then
      match reasonFmt1After (List.drop 3 (c :: rest)) with
      | some cap => some cap
      | none => reasonFmt1 rest
    else reasonFmt1 rest

/-- After one occurrence of `reason` (format 2): `[:：]\s*(\w+)`. -/
def reasonFmt2After (rest : List Char) : Option (List Char) :=
  match rest with
  | [] => none
  | c :: rest1 =>
    if c == ':' || c == fullColon then
      match List.span jsSpace rest1 with
      | (_, rest2) =>
        match List.span wordChar rest2 with
        | (cap, _) => if cap.isEmpty then none else some cap
    else none

/-- Format 2 of `extractRevocationReason`, tried at each occurrence of
`reason`. -/
def reasonFmt2 : List Char → Option (List Char)
  | [] => none
  | c :: rest =>
    if ciPrefixAt "reason".data (c :: rest) then
      match reasonFmt2After (List.drop 6 (c :: rest)) with
      | some cap => some cap
      | none => reasonFmt2 rest
    else reasonFmt2 rest

/-- `extractRevocationReason` of `generate-crl.js`: the captured word is
lowercased and mapped onto the standard CRL reason codes, defaulting to
`unspecified`. -/
def extractRevocationReason (body : String) : String :=
  match reasonFmt1 body.data with
  | some cap => mapRevocationReason (lowerStr (String.mk cap))
  | none =>
    match reasonFmt2 body.data with
    | some cap => mapRevocationReason (lowerStr (String.mk cap))
    | none => "unspecified"

/-- One value of the `issuedCertificates` map built by `generateCRL`. -/
structure IssuedMapEntry where
  serialNumber : String
  fingerprint : Option String
  owner : String
  issuedAt : Nat
  issueNumber : Nat
deriving Repr, DecidableEq

/-- `Map.prototype.set`: overwrite the existing binding of the key, else
append a new one. -/
def mapSet (m : List (String × IssuedMapEntry)) (k : String) (v : IssuedMapEntry) :
    List (String × IssuedMapEntry) :=
  if m.any (fun p => p.1 == k) then
    m.map (fun p => if p.1 == k then (k, v) else p)
  else m ++ [(k, v)]

/-- `Map.prototype.get`. -/
def mapGet (m : List (String × IssuedMapEntry)) (k : String) : Option IssuedMapEntry :=
  (m.find? (fun p => p.1 == k)).map Prod.snd

/-- The issuance fold of `generateCRL`: reduce all `[keyring]` entries to
a serial-number-keyed map of issued certificates, later entries
overwriting earlier bindings of the same serial. -/
def buildIssuedMap : List Issue → List (String × IssuedMapEntry) →
    List (String × IssuedMapEntry)
  | [], m => m
  | issue :: rest, m =>
    if !(strIncludes (lowerStr issue.title) "[keyring]") then buildIssuedMap rest m
    else
      match extractCertificateInfoFromComments issue.comments with
      | none => buildIssuedMap rest m
      | some certInfo =>
        buildIssuedMap rest (mapSet m certInfo.serialNumber
          { serialNumber := certInfo.serialNumber
            fingerprint := certInfo.fingerprint
            owner := issue.author
            issuedAt := certInfo.issuedAt
            issueNumber := issue.number })

/-- One entry of the generated CRL's `revokedCertificates` sequence. -/
structure RevokedCert where
  serialNumber : String
  fingerprint : Option String
  owner : String
  revokedAt : Nat
  reason : String
  revokeIssueNumber : Nat
  originalIssueNumber : Option Nat
deriving Repr, DecidableEq

/-- Build one revocation entry from a `[revoke]` issue and its extracted
serial number: owner and fingerprint are backfilled from the issuance map
when a binding exists (with the JavaScript falsiness fallbacks of
`issuedCert?.owner || author`, `issuedCert?.fingerprint || null` and
`issuedCert?.issueNumber || null`), the owner falling back to the
revocation requester; `revokedAt` is the success comment's timestamp when
present, else the issue's closing time. -/
def mkRevokedEntry (m : List (String × IssuedMapEntry)) (issue : Issue)
    (serialNumber : String) : RevokedCert :=
  let issuedCert := mapGet m serialNumber
  let revokeComment := issue.comments.find? (fun c =>
    strIncludes c.body "✅" && strIncludes c.body "Certificate Revoked Successfully")
  { serialNumber := serialNumber
    fingerprint :=
      match issuedCert with
      | some c =>
        match c.fingerprint with
        | some f => if f == "" then none else some f
        | none => none
      | none => none
    owner :=
      match issuedCert with
      | some c => if c.owner == "" then issue.author else c.owner
      | none => issue.author
    revokedAt :=
      match revokeComment with
      | some c => c.createdAt
      | none => issue.closedAt
    reason := extractRevocationReason issue.body
    revokeIssueNumber := issue.number
    originalIssueNumber :=
      match issuedCert with
      | some c => if c.issueNumber == 0 then none else some c.issueNumber
      | none => none }

/-- The revocation fold of `generateCRL`: keep `[revoke]` entries with an
extractable serial number, skipping serial numbers already collected
(duplicate revocation tickets). -/
def buildRevokedList (m : List (String × IssuedMapEntry)) :
    List Issue → List String → List RevokedCert
  | [], _ => []
  | issue :: rest, revokedSerials =>
    if !(strIncludes (lowerStr issue.title) "[revoke]") then
      buildRevokedList m rest revokedSerials
    else
      match extractSerialNumberFromBody issue.body with
      | none => buildRevokedList m rest revokedSerials
      | some serialNumber =>
        if revokedSerials.contains serialNumber then
          buildRevokedList m rest revokedSerials
        else
          mkRevokedEntry m issue serialNumber ::
            buildRevokedList m rest (serialNumber :: revokedSerials)

/-- Stable insertion into a list sorted by `revokedAt` descending. -/
def insertByRevokedAtDesc (a : RevokedCert) : List RevokedCert → List RevokedCert
  | [] => [a]
  | b :: t =>
    if b.revokedAt ≤ a.revokedAt then a :: b :: t else b :: insertByRevokedAtDesc a t

/-- The stable sort by `revokedAt` descending applied to the revocation
list (`Array.prototype.sort` with the `revokedAt` difference comparator;
`sort` is stable). -/
def sortByRevokedAtDesc : List RevokedCert → List RevokedCert
  | [] => []
  | a :: t => insertByRevokedAtDesc a (sortByRevokedAtDesc t)

/-- The generated CRL document. -/
structure CRL where
  version : String
  generatedAt : Nat
  issuer : String
  totalIssued : Nat
  totalRevoked : Nat
  revokedCertificates : List RevokedCert
deriving Repr, DecidableEq

/-- `generateCRL` of `generate-crl.js`: fold the fetched issuance entries
into the issued-certificates map, fold the fetched revocation entries into
the deduplicated revocation list, and emit the document with the list
sorted by `revokedAt` descending.  `now` is the build timestamp and flows
only into `generatedAt`. -/
def generateCRL (now : Nat) (approvedIssues revokedIssues : List Issue) : CRL :=
  let issuedCertificates := buildIssuedMap approvedIssues []
  let revokedCertificates := buildRevokedList issuedCertificates revokedIssues []
  { version := "1.0"
    generatedAt := now
    issuer := "KernelSU Module Developers"
    totalIssued := issuedCertificates.length
    totalRevoked := revokedCertificates.length
    revokedCertificates := sortByRevokedAtDesc revokedCertificates }

/-- The issuance-marker test both extractors apply to a comment. -/
def certCommentPred (c : Comment) : Bool :=
  strIncludes c.body certMarker && strIncludes c.body "Serial Number"

/-- The record the resolver derives from one marker comment. -/
def commentCertInfo (c : Comment) : Option CertInfo :=
  match matchSerialCapture c.body with
  | none => none
  | some sn =>
    some { serialNumber := sn, fingerprint := matchFingerprintCapture c.body
           issuedAt := c.createdAt, expiresAt := c.createdAt + 365 * 24 * 60 * 60 * 1000 }

/-- The record the CRL generator derives from one marker comment. -/
def commentCrlCertInfo (c : Comment) : Option CrlCertInfo :=
  match matchSerialCapture c.body with
  | none => none
  | some sn =>
    some { serialNumber := sn, fingerprint := matchFingerprintCapture c.body
           issuedAt := c.createdAt }

/-- A `[keyring]` entry the resolver's scan will accept as carrying the
active certificate: extractable, unexpired, not revoked. -/
def activeCandidate (revokeIssues : List Issue) (now : Nat) (issue : Issue) : Bool :=
  match extractCertificateInfo issue.comments with
  | none => false
  | some ci =>
    if ci.expiresAt < now then false
    else if isCertificateRevoked ci.serialNumber revokeIssues then false
    else true

/-- Marker comment carrying serial `aa11` (used as concrete data). -/
def cmtFirst : Comment :=
  { body := "✅ Certificate successfully issued Serial Number: `aa11`"
    createdAt := 1000, author := "bot" }

/-- Later marker comment carrying serial `bb22` (used as concrete data). -/
def cmtSecond : Comment :=
  { body := "✅ Certificate successfully issued Serial Number: `bb22`"
    createdAt := 2000, author := "bot" }

/-- A closed, approved `[keyring]` entry by `alice` whose thread records
serial `ab12`. -/
def kIssueAlice : Issue :=
  { number := 10, title := "[keyring] alice", body := "", author := "alice"
    createdAt := 500, closedAt := 600
    comments := [{ body := "✅ Certificate successfully issued Serial Number: `ab12`"
                   createdAt := 1000, author := "bot" }] }

/-- A revocation request for `ab12` filed by `ALICE` (owner, different
case). -/
def revByOwner : Issue :=
  { number := 20, title := "[Revoke] certificate", body := "Serial Number: `ab12`"
    author := "ALICE", createdAt := 2000, closedAt := 2100, comments := [] }

/-- A revocation request for `ab12` filed by `bob` (non-owner). -/
def revByBob : Issue :=
  { number := 21, title := "[revoke] certificate", body := "Serial Number: `ab12`"
    author := "bob", createdAt := 2000, closedAt := 2100, comments := [] }

/-- A revocation request for the untracked serial `ff00` filed by
`bob`. -/
def revUnknownSerial : Issue :=
  { number := 22, title := "[revoke] certificate", body := "Serial Number: `ff00`"
    author := "bob", createdAt := 2000, closedAt := 2100, comments := [] }

/-- A closed revocation entry whose body names serial `ab12`. -/
def revEntryAb12 : Issue :=
  { number := 30, title := "[revoke] compromised key", body := "please revoke ab12"
    author := "alice", createdAt := 3000, closedAt := 3100, comments := [] }

/-- An EC P-256 public key as seen by the issuer's validation. -/
def ecKeyP256 : KeyMaterial := { keyType := "ec", namedCurve := "prime256v1" }

/-- Sixteen fixed bytes standing for one output of
`crypto.randomBytes(16)`. -/
def bytes0 : List Nat := List.replicate 16 171

/-- An approved `[keyring]` entry by `bob` whose thread already records
the serial number that `bytes0` hex-encodes to. -/
def priorIssueBob : Issue :=
  { number := 40, title := "[keyring] bob", body := "", author := "bob"
    createdAt := 100, closedAt := 200
    comments := [{ body := "✅ Certificate successfully issued Serial Number: `abababababababababababababababab`"
                   createdAt := 300, author := "bot" }] }

/-- Five approved issuance entries with distinct serial numbers; the first
also records a fingerprint. -/
def approvedFive : List Issue :=
  [{ number := 1, title := "[keyring] dev1", body := "", author := "dev1"
     createdAt := 110, closedAt := 120
     comments := [{ body := "✅ Certificate successfully issued Serial Number: `11aa` Fingerprint (SHA-256): `AA:11`"
                    createdAt := 130, author := "bot" }] },
   { number := 2, title := "[keyring] dev2", body := "", author := "dev2"
     createdAt := 210, closedAt := 220
     comments := [{ body := "✅ Certificate successfully issued Serial Number: `22bb`"
                    createdAt := 230, author := "bot" }] },
   { number := 3, title := "[keyring] dev3", body := "", author := "dev3"
     createdAt := 310, closedAt := 320
     comments := [{ body := "✅ Certificate successfully issued Serial Number: `33cc`"
                    createdAt := 330, author := "bot" }] },
   { number := 4, title := "[keyring] dev4", body := "", author := "dev4"
     createdAt := 410, closedAt := 420
     comments := [{ body := "✅ Certificate successfully issued Serial Number: `44dd`"
                    createdAt := 430, author := "bot" }] },
   { number := 5, title := "[keyring] dev5", body := "", author := "dev5"
     createdAt := 510, closedAt := 520
     comments := [{ body := "✅ Certificate successfully issued Serial Number: `55ee`"
                    createdAt := 530, author := "bot" }] }]

/-- A closed revocation entry for the untracked serial `CCC333`, filed by
`carol`. -/
def revUntracked : Issue :=
  { number := 101, title := "[revoke] old certificate", body := "Serial Number: `CCC333`"
    author := "carol", createdAt := 9000, closedAt := 9100, comments := [] }

/-- A closed revocation entry for the tracked serial `11aa`, filed by its
owner, with a success comment fixing the revocation time. -/
def revTracked : Issue :=
  { number := 102, title := "[revoke] my certificate", body := "Serial Number: `11aa`"
    author := "dev1", createdAt := 9500, closedAt := 9600
    comments := [{ body := "✅ Certificate Revoked Successfully"
                   createdAt := 9550, author := "bot" }] }

theorem find?_eq_filter_head? {α : Type} (p : α → Bool) (l : List α) :
    l.find? p = (l.filter p).head? := by
  induction l with
  | nil => rfl
  | cons a t ih =>
    cases h : p a with
    | true => rw [List.find?_cons_of_pos _ h, List.filter_cons_of_pos h]; rfl
    | false =>
      rw [List.find?_cons_of_neg _ (by simp [h]), List.filter_cons_of_neg (by simp [h]), ih]

theorem reverse_find?_eq_filter_getLast? {α : Type} (p : α → Bool) (l : List α) :
    l.reverse.find? p = (l.filter p).getLast? := by
  rw [find?_eq_filter_head? p l.reverse, List.filter_reverse, List.head?_reverse]

theorem checkScan_eq_find (revs : List Issue) (now : Nat) (l : List Issue) :
    checkScan revs now l =
      match l.find? (activeCandidate revs now) with
      | none => noActiveResult
      | some issue =>
        { hasActiveCert := true, certificate := extractCertificateInfo issue.comments
          issueNumber := some issue.number, error := none } := by
  induction l with
  | nil => rfl
  | cons issue rest ih =>
    cases h : extractCertificateInfo issue.comments with
    | none =>
      have hc : activeCandidate revs now issue = false := by
        simp [activeCandidate, h]
      have hstep : checkScan revs now (issue :: rest) = checkScan revs now rest := by
        simp [checkScan, h]
      rw [hstep, ih, List.find?_cons_of_neg _ (by simp [hc])]
    | some ci =>
      by_cases hexp : ci.expiresAt < now
      · have hc : activeCandidate revs now issue = false := by
          simp [activeCandidate, h, hexp]
        have hstep : checkScan revs now (issue :: rest) = checkScan revs now rest := by
          simp [checkScan, h, hexp]
        rw [hstep, ih, List.find?_cons_of_neg _ (by simp [hc])]
      · cases hrev : isCertificateRevoked ci.serialNumber revs with
        | true =>
          have hc : activeCandidate revs now issue = false := by
            simp [activeCandidate, h, hexp, hrev]
          have hstep : checkScan revs now (issue :: rest) = checkScan revs now rest := by
            simp [checkScan, h, hexp, hrev]
          rw [hstep, ih, List.find?_cons_of_neg _ (by simp [hc])]
        | false =>
          have hc : activeCandidate revs now issue = true := by
            simp [activeCandidate, h, hexp, hrev]
          rw [List.find?_cons_of_pos _ hc]
          simp [checkScan, h, hexp, hrev]

/-- C1.  For every ledger history, the resolver reports at most one
active certificate: the fetched issuance entries (newest first) are
filtered to `[keyring]` entries and scanned in order, and the scan's
result is exactly the first entry whose record is extractable, unexpired
and unrevoked — a single record, every older entry being ignored once it
is found. -/
theorem uniqueness_of_active (keyringIssues revokeIssues : List Issue) (now : Nat) :
    checkCore keyringIssues revokeIssues now =
      match (keyringIssues.filter keyringTitle).find? (activeCandidate revokeIssues now) with
      | none => noActiveResult
      | some issue =>
        { hasActiveCert := true, certificate := extractCertificateInfo issue.comments
          issueNumber := some issue.number, error := none } :=
  checkScan_eq_find revokeIssues now (keyringIssues.filter keyringTitle)

/-- C3.  A record that is still within its validity window but whose
serial number appears in a closed `[revoke]` ledger entry is never
returned as the active certificate by the resolver. -/
theorem revocation_precedence (keyringIssues revokeIssues : List Issue) (now : Nat)
    (ci : CertInfo) (hvalid : ¬ ci.expiresAt < now)
    (hrev : isCertificateRevoked ci.serialNumber revokeIssues = true) :
    (checkCore keyringIssues revokeIssues now).certificate ≠ some ci := by
  intro heq
  have hfind := checkScan_eq_find revokeIssues now (keyringIssues.filter keyringTitle)
  have heq2 : (checkScan revokeIssues now (keyringIssues.filter keyringTitle)).certificate
      = some ci := heq
  rw [hfind] at heq2
  cases hf : (keyringIssues.filter keyringTitle).find? (activeCandidate revokeIssues now) with
  | none => rw [hf] at heq2; simp [noActiveResult] at heq2
  | some issue =>
    rw [hf] at heq2
    simp only at heq2
    have hcand := List.find?_some hf
    rw [activeCandidate] at hcand
    rw [heq2] at hcand
    simp only at hcand
    simp [hvalid, hrev] at hcand

/-- Closed instance for `revocation_precedence`: with `alice`'s record for
serial `ab12` unexpired and a closed `[revoke]` entry naming `ab12`, the
resolver does not return that record as active. -/
theorem revocation_precedence_witness :
    ¬ (1000 + 31536000000 : Nat) < 2000 ∧
    isCertificateRevoked "ab12" [revEntryAb12] = true ∧
    (checkCore [kIssueAlice] [revEntryAb12] 2000).certificate ≠
      some { serialNumber := "ab12", fingerprint := none
             issuedAt := 1000, expiresAt := 1000 + 31536000000 } :=
  ⟨by decide, by decide,
    revocation_precedence [kIssueAlice] [revEntryAb12] 2000
      { serialNumber := "ab12", fingerprint := none
        issuedAt := 1000, expiresAt := 1000 + 31536000000 } (by decide) (by decide)⟩

/-- C2.  Revocation authorization: ownership is the case-insensitive
comparison of the requester with the author of the ledger entry recording
the serial number; an owner is permitted, a non-owner holding the
organisation-admin capability is permitted with the admin-override flag,
and a requester who is neither is denied. -/
theorem revocation_authorization_symmetry (issue : Issue) (ledger : List Issue) (s : String)
    (ht : strIncludes (lowerStr issue.title) "[revoke]" = true)
    (hs : extractSerialNumber issue.body = some s) :
    (∀ fi, findCertIssue s ledger = some fi →
        (verifyCore s issue.author ledger).isOwner =
          (lowerStr fi.author == lowerStr issue.author)) ∧
    ((verifyCore s issue.author ledger).isOwner = true →
        ∀ isAdmin, handleRevokeIssue issue (Except.ok ledger) isAdmin
          = RevokeOutcome.revoked s false) ∧
    ((verifyCore s issue.author ledger).isOwner = false →
        handleRevokeIssue issue (Except.ok ledger) true = RevokeOutcome.revoked s true) ∧
    ((verifyCore s issue.author ledger).isOwner = false →
        handleRevokeIssue issue (Except.ok ledger) false =
          RevokeOutcome.denied (verifyCore s issue.author ledger).actualOwner
            (verifyCore s issue.author ledger).issueNumber) := by
  refine ⟨?_, ?_, ?_, ?_⟩
  · intro fi hfi
    simp [verifyCore, hfi]
  · intro hown isAdmin
    simp [handleRevokeIssue, ht, hs, verifyCertificateOwnership, hown]
  · intro hown
    simp [handleRevokeIssue, ht, hs, verifyCertificateOwnership, hown]
  · intro hown
    simp [handleRevokeIssue, ht, hs, verifyCertificateOwnership, hown]

/-- Closed instance for `revocation_authorization_symmetry`: `ALICE`
revoking `alice`'s certificate succeeds (case-insensitive owner match),
`bob` with the admin capability succeeds with the override flag, and
`bob` without it is denied with the recorded owner reported. -/
theorem revocation_authorization_symmetry_witness :
    handleRevokeIssue revByOwner (Except.ok [kIssueAlice]) false
      = RevokeOutcome.revoked "ab12" false ∧
    handleRevokeIssue revByBob (Except.ok [kIssueAlice]) true
      = RevokeOutcome.revoked "ab12" true ∧
    handleRevokeIssue revByBob (Except.ok [kIssueAlice]) false
      = RevokeOutcome.denied (some "alice") (some 10) := by
  have h1 := revocation_authorization_symmetry revByOwner [kIssueAlice] "ab12"
    (by decide) (by decide)
  have h2 := revocation_authorization_symmetry revByBob [kIssueAlice] "ab12"
    (by decide) (by decide)
  refine ⟨h1.2.1 (by decide) false, h2.2.2.1 (by decide), ?_⟩
  rw [h2.2.2.2 (by decide)]
  decide

/-- C6.  A revocation request naming a serial number with no issuance
record in the ledger is denied for a non-admin requester, and the denial
carries no recorded owner — the unknown-certificate report, distinct from
the belongs-to-someone-else report that names an owner. -/
theorem unknown_serial_denied_distinguishably (issue : Issue) (ledger : List Issue) (s : String)
    (ht : strIncludes (lowerStr issue.title) "[revoke]" = true)
    (hs : extractSerialNumber issue.body = some s)
    (hnone : findCertIssue s ledger = none) :
    verifyCore s issue.author ledger =
      { isOwner := false, actualOwner := none, issueNumber := none } ∧
    handleRevokeIssue issue (Except.ok ledger) false = RevokeOutcome.denied none none ∧
    (∀ o n, RevokeOutcome.denied none none ≠ RevokeOutcome.denied (some o) n) := by
  have hv : verifyCore s issue.author ledger =
      { isOwner := false, actualOwner := none, issueNumber := none } := by
    simp [verifyCore, hnone]
  refine ⟨hv, ?_, ?_⟩
  · simp [handleRevokeIssue, ht, hs, verifyCertificateOwnership, hv]
  · intro o n h
    simp at h

/-- Closed instance for `unknown_serial_denied_distinguishably`: the
serial `ff00` has no issuance record, and `bob`'s request is denied with
the unknown-certificate shape. -/
theorem unknown_serial_denied_distinguishably_witness :
    findCertIssue "ff00" [kIssueAlice] = none ∧
    handleRevokeIssue revUnknownSerial (Except.ok [kIssueAlice]) false
      = RevokeOutcome.denied none none := by
  have h := unknown_serial_denied_distinguishably revUnknownSerial [kIssueAlice] "ff00"
    (by decide) (by decide) (by decide)
  exact ⟨by decide, h.2.1⟩

/-- C9.  When the ledger fetch fails, the resolver returns the documented
no-active-certificate default with the error message attached, and the
issuance handler proceeds after posting the degraded-check warning:
fail-open issuance with the failure surfaced. -/
theorem resolver_ledger_failure_fail_open (msg : String) (now : Nat) :
    checkExistingCertificate (Except.error msg) now =
      { hasActiveCert := false, certificate := none, issueNumber := none
        error := some msg } ∧
    handleKeyringOpened (Except.error msg) now
      = KeyringOpenedOutcome.warnedAndProceeded msg :=
  ⟨rfl, rfl⟩

/-- C10.  When the ledger fetch fails during ownership verification, the
revocation handler lands in its catch block: the outcome is the wrapped
system error, and the only ledger write is the system-error comment — no
label, no close, no CRL update.  Revocation is fail-closed. -/
theorem revocation_ledger_failure_fail_closed (issue : Issue) (msg : String)
    (isAdmin : Bool) (s : String)
    (ht : strIncludes (lowerStr issue.title) "[revoke]" = true)
    (hs : extractSerialNumber issue.body = some s) :
    handleRevokeIssue issue (Except.error msg) isAdmin =
      RevokeOutcome.systemError ("Failed to verify certificate ownership: " ++ msg) ∧
    revokeActions (handleRevokeIssue issue (Except.error msg) isAdmin) =
      [GhAction.comment "system-error"] ∧
    (∀ lbl, GhAction.addLabel lbl ∉
        revokeActions (handleRevokeIssue issue (Except.error msg) isAdmin)) ∧
    (∀ b, GhAction.close b ∉
        revokeActions (handleRevokeIssue issue (Except.error msg) isAdmin)) ∧
    GhAction.updateCRL ∉ revokeActions (handleRevokeIssue issue (Except.error msg) isAdmin) := by
  have h : handleRevokeIssue issue (Except.error msg) isAdmin =
      RevokeOutcome.systemError ("Failed to verify certificate ownership: " ++ msg) := by
    simp [handleRevokeIssue, ht, hs, verifyCertificateOwnership]
  refine ⟨h, ?_, ?_, ?_, ?_⟩ <;> simp [h, revokeActions]

/-- Closed instance for `revocation_ledger_failure_fail_closed`. -/
theorem revocation_ledger_failure_fail_closed_witness :
    handleRevokeIssue revByOwner (Except.error "rate limited") false =
      RevokeOutcome.systemError ("Failed to verify certificate ownership: " ++ "rate limited") ∧
    revokeActions (handleRevokeIssue revByOwner (Except.error "rate limited") false) =
      [GhAction.comment "system-error"] := by
  have h := revocation_ledger_failure_fail_closed revByOwner "rate limited" false "ab12"
    (by decide) (by decide)
  exact ⟨h.1, h.2.1⟩

/-- C4 counterexample.  A thread with two marker comments carrying
different serial numbers: the resolver's extraction returns the first
marker comment's serial (`aa11`), not the last one's (`bb22`), while the
CRL generator's extraction returns the last.  The claim that both
extractions take the last marker match is therefore false. -/
theorem resolver_marker_first_counterexample :
    extractCertificateInfo [cmtFirst, cmtSecond] =
      some { serialNumber := "aa11", fingerprint := none
             issuedAt := 1000, expiresAt := 1000 + 31536000000 } ∧
    extractCertificateInfoFromComments [cmtFirst, cmtSecond] =
      some { serialNumber := "bb22", fingerprint := none, issuedAt := 2000 } ∧
    ("aa11" : String) ≠ "bb22" :=
  ⟨by decide, by decide, by decide⟩

/-- C4 as amended.  The CRL generator's extraction takes the last marker
comment of the thread, but the resolver's extraction takes the first:
each equals the extraction applied to the head (respectively the last
element) of the thread's marker comments. -/
theorem marker_extraction_first_vs_last (cs : List Comment) :
    extractCertificateInfo cs = ((cs.filter certCommentPred).head?).bind commentCertInfo ∧
    extractCertificateInfoFromComments cs =
      ((cs.filter certCommentPred).getLast?).bind commentCrlCertInfo := by
  have hpred : (fun c : Comment =>
      strIncludes c.body certMarker && strIncludes c.body "Serial Number") = certCommentPred :=
    rfl
  constructor
  · rw [← find?_eq_filter_head?]
    cases h : cs.find? certCommentPred with
    | none => simp [extractCertificateInfo, hpred, h]
    | some c =>
      simp only [extractCertificateInfo, hpred, h, Option.bind_some]
      cases hs : matchSerialCapture c.body <;> simp [commentCertInfo, hs]
  · have hgl : (cs.filter certCommentPred).getLast? = cs.reverse.find? certCommentPred := by
      rw [find?_eq_filter_head?, List.filter_reverse, List.head?_reverse]
    rw [hgl]
    cases h : cs.reverse.find? certCommentPred with
    | none => simp [extractCertificateInfoFromComments, hpred, h]
    | some c =>
      simp only [extractCertificateInfoFromComments, hpred, h, Option.bind_some]
      cases hs : matchSerialCapture c.body <;> simp [commentCrlCertInfo, hs]

/-- C5 counterexample.  The serial number hex-encoded from `bytes0` is
already recorded as issued in the ledger, yet the issuer — which takes no
ledger data at all — succeeds and emits a certificate with that very
serial number instead of aborting with an error. -/
theorem serial_collision_accepted_counterexample :
    mapGet (buildIssuedMap [priorIssueBob] []) (generateSerialNumber bytes0) ≠ none ∧
    issueDeveloperCertificate true ecKeyP256 "mallory" bytes0 5000 =
      Except.ok
        { serialNumber := "abababababababababababababababab", subjectCN := "mallory"
          subjectO := "KernelSU Module Developers", notBefore := 5000
          notAfter := 5000 + 31536000000, hashAlgorithm := "SHA-256"
          basicConstraintsCA := false, keyUsageDigitalSignature := true
          extendedKeyUsageCodeSigning := true } ∧
    generateSerialNumber bytes0 = "abababababababababababababababab" :=
  ⟨by decide, by rfl, by decide⟩

theorem bytesToHex_length (bs : List Nat) : (bytesToHex bs).length = 2 * bs.length := by
  induction bs with
  | nil => rfl
  | cons b t ih => simp [bytesToHex, ih]; ring

theorem hexDigitLower_hex : ∀ n : Fin 16, hexDigit (hexDigitLower n.val) = true := by decide

theorem bytesToHex_all_hex (bs : List Nat) : ∀ c ∈ bytesToHex bs, hexDigit c = true := by
  induction bs with
  | nil => intro c hc; simp [bytesToHex] at hc
  | cons b t ih =>
    intro c hc
    simp only [bytesToHex, List.mem_cons] at hc
    rcases hc with h | h | h
    · rw [h]; exact hexDigitLower_hex ⟨b / 16 % 16, Nat.mod_lt _ (by norm_num)⟩
    · rw [h]; exact hexDigitLower_hex ⟨b % 16, Nat.mod_lt _ (by norm_num)⟩
    · exact ih c h

/-- C5 as amended.  The issuer draws a fresh 16-byte random serial and
hex-encodes it (32 lowercase-hex characters, 128 bits), but performs no
collision check: even when the generated serial number already has a
binding in the ledger's issued-certificates map, issuance succeeds and
returns a certificate carrying the colliding serial. -/
theorem issuance_ignores_serial_collision (key : KeyMaterial) (username : String)
    (randomBytes : List Nat) (now : Nat) (prior : List Issue)
    (hec : key.keyType = "ec") (hcurve : (supportedCurves key.namedCurve).isSome = true)
    (hlen : randomBytes.length = 16)
    (hcol : mapGet (buildIssuedMap prior []) (generateSerialNumber randomBytes) ≠ none) :
    ∃ cert, issueDeveloperCertificate true key username randomBytes now = Except.ok cert ∧
      cert.serialNumber = generateSerialNumber randomBytes ∧
      (generateSerialNumber randomBytes).length = 32 ∧
      (generateSerialNumber randomBytes).data.all hexDigit = true := by
  obtain ⟨cv, hcv⟩ := Option.isSome_iff_exists.mp hcurve
  refine ⟨{ serialNumber := generateSerialNumber randomBytes
            subjectCN := username, subjectO := "KernelSU Module Developers"
            notBefore := now, notAfter := now + 365 * 24 * 60 * 60 * 1000
            hashAlgorithm := if cv == "P-256" then "SHA-256" else "SHA-512"
            basicConstraintsCA := false, keyUsageDigitalSignature := true
            extendedKeyUsageCodeSigning := true }, ?_, rfl, ?_, ?_⟩
  · simp [issueDeveloperCertificate, hec, hcv]
  · have h1 : (generateSerialNumber randomBytes).length = (bytesToHex randomBytes).length :=
      rfl
    rw [h1, bytesToHex_length, hlen]
  · have h1 : (generateSerialNumber randomBytes).data = bytesToHex randomBytes := rfl
    rw [h1, List.all_eq_true]
    intro c hc
    exact bytesToHex_all_hex randomBytes c hc

/-- Closed instance for `issuance_ignores_serial_collision`. -/
theorem issuance_ignores_serial_collision_witness :
    ∃ cert, issueDeveloperCertificate true ecKeyP256 "mallory" bytes0 5000 = Except.ok cert ∧
      cert.serialNumber = generateSerialNumber bytes0 ∧
      (generateSerialNumber bytes0).length = 32 ∧
      (generateSerialNumber bytes0).data.all hexDigit = true :=
  issuance_ignores_serial_collision ecKeyP256 "mallory" bytes0 5000 [priorIssueBob]
    (by decide) (by decide) (by decide) (by decide)

/-- C7.  Two CRL builds over the same fetched ledger agree on every field
except `generatedAt`: same version, issuer, counts, and the same revoked
sequence in the same order. -/
theorem crl_generation_deterministic (t1 t2 : Nat)
    (approvedIssues revokedIssues : List Issue) :
    (generateCRL t1 approvedIssues revokedIssues).version
      = (generateCRL t2 approvedIssues revokedIssues).version ∧
    (generateCRL t1 approvedIssues revokedIssues).issuer
      = (generateCRL t2 approvedIssues revokedIssues).issuer ∧
    (generateCRL t1 approvedIssues revokedIssues).totalIssued
      = (generateCRL t2 approvedIssues revokedIssues).totalIssued ∧
    (generateCRL t1 approvedIssues revokedIssues).totalRevoked
      = (generateCRL t2 approvedIssues revokedIssues).totalRevoked ∧
    (generateCRL t1 approvedIssues revokedIssues).revokedCertificates
      = (generateCRL t2 approvedIssues revokedIssues).revokedCertificates :=
  ⟨rfl, rfl, rfl, rfl, rfl⟩

theorem mem_insertByRevokedAtDesc (a b : RevokedCert) (l : List RevokedCert) :
    a ∈ insertByRevokedAtDesc b l ↔ a = b ∨ a ∈ l := by
  induction l with
  | nil => simp [insertByRevokedAtDesc]
  | cons c t ih =>
    by_cases h : c.revokedAt ≤ b.revokedAt
    · simp [insertByRevokedAtDesc, h]
    · simp [insertByRevokedAtDesc, h, ih]
      tauto

theorem mem_sortByRevokedAtDesc (a : RevokedCert) (l : List RevokedCert) :
    a ∈ sortByRevokedAtDesc l ↔ a ∈ l := by
  induction l with
  | nil => simp [sortByRevokedAtDesc]
  | cons c t ih => simp [sortByRevokedAtDesc, mem_insertByRevokedAtDesc, ih]

/-- C8.  A revocation entry with an extractable serial number is retained
in the built CRL and counted in `totalRevoked` even when no issuance
record matches its serial: its entry then carries the revocation
requester as owner and a null fingerprint; when an issuance record does
match, owner and fingerprint are backfilled from it. -/
theorem crl_retains_untracked_revocation (now : Nat) (approvedIssues rest : List Issue)
    (issue : Issue) (s : String)
    (ht : strIncludes (lowerStr issue.title) "[revoke]" = true)
    (hs : extractSerialNumberFromBody issue.body = some s) :
    mkRevokedEntry (buildIssuedMap approvedIssues []) issue s ∈
        (generateCRL now approvedIssues (issue :: rest)).revokedCertificates ∧
    (generateCRL now approvedIssues (issue :: rest)).totalRevoked =
        (buildRevokedList (buildIssuedMap approvedIssues []) rest [s]).length + 1 ∧
    (mkRevokedEntry (buildIssuedMap approvedIssues []) issue s).serialNumber = s ∧
    (mapGet (buildIssuedMap approvedIssues []) s = none →
        (mkRevokedEntry (buildIssuedMap approvedIssues []) issue s).owner = issue.author ∧
        (mkRevokedEntry (buildIssuedMap approvedIssues []) issue s).fingerprint = none) ∧
    (∀ c, mapGet (buildIssuedMap approvedIssues []) s = some c → ¬ c.owner = "" →
        (mkRevokedEntry (buildIssuedMap approvedIssues []) issue s).owner = c.owner) ∧
    (∀ c f, mapGet (buildIssuedMap approvedIssues []) s = some c → c.fingerprint = some f →
        ¬ f = "" →
        (mkRevokedEntry (buildIssuedMap approvedIssues []) issue s).fingerprint = some f) := by
  have hstep : buildRevokedList (buildIssuedMap approvedIssues []) (issue :: rest) [] =
      mkRevokedEntry (buildIssuedMap approvedIssues []) issue s ::
        buildRevokedList (buildIssuedMap approvedIssues []) rest [s] := by
    simp [buildRevokedList, ht, hs]
  refine ⟨?_, ?_, rfl, ?_, ?_, ?_⟩
  · simp only [generateCRL, hstep, mem_sortByRevokedAtDesc, List.mem_cons]
    left
    trivial
  · simp [generateCRL, hstep]
  · intro hnone
    constructor <;> simp [mkRevokedEntry, hnone]
  · intro c hc hownne
    have hb : (c.owner == "") = false := by simp [hownne]
    simp [mkRevokedEntry, hc, hb]
  · intro c f hc hf hfne
    have hb : (f == "") = false := by simp [hfne]
    simp [mkRevokedEntry, hc, hf, hb]

/-- Closed instance for `crl_retains_untracked_revocation`, the spec's
scenario: five issuances, two revocations, one of them for the untracked
serial `CCC333`; the CRL counts five issued and two revoked, keeps the
untracked entry with its requester `carol` as owner and no fingerprint,
and backfills the tracked entry from the issuance record. -/
theorem crl_retains_untracked_revocation_witness :
    (generateCRL 0 approvedFive [revUntracked, revTracked]).totalIssued = 5 ∧
    (generateCRL 0 approvedFive [revUntracked, revTracked]).totalRevoked = 2 ∧
    mkRevokedEntry (buildIssuedMap approvedFive []) revUntracked "CCC333" ∈
        (generateCRL 0 approvedFive [revUntracked, revTracked]).revokedCertificates ∧
    (mkRevokedEntry (buildIssuedMap approvedFive []) revUntracked "CCC333").owner = "carol" ∧
    (mkRevokedEntry (buildIssuedMap approvedFive []) revUntracked "CCC333").fingerprint
        = none ∧
    (mkRevokedEntry (buildIssuedMap approvedFive []) revTracked "11aa").owner = "dev1" ∧
    (mkRevokedEntry (buildIssuedMap approvedFive []) revTracked "11aa").fingerprint
        = some "AA:11" := by
  have h := crl_retains_untracked_revocation 0 approvedFive [revTracked] revUntracked "CCC333"
    (by decide) (by decide)
  have hun := h.2.2.2.1 (by decide)
  exact ⟨by decide, by decide, h.1, hun.1, hun.2, by decide, by decide⟩
